import Mathlib

/-!
Shallow embedding of `src/Collectors/energy/collect_energy.py`: the pulse
edge callback, the aggregation loop (glitch filter, windowing, emission),
the persistence buffer with its dual time/size flush policy, and the
shutdown path.  Wall-clock readings of `time.time()` are modelled as a
`now : Nat` supplied to each loop iteration; timestamps and tick counters
are Python arbitrary-precision integers restricted to their actual
non-negative ranges, hence `Nat`.  `round(x)` in Python rounds half to
even; `dt_agg / 1000` is modelled as the exact rational `n / 1000` (the
binary64 representation error of the quotient is not modelled; every
value reasoned about below is far from a half-integer tie).
-/

namespace CollectEnergy

/-- Configuration constants, from the top of `collect_energy.py`. -/
def DbaseBlkTime : Nat := 60

def MAX_RECORDS : Nat := 5000

def MIN_TIME : Nat := 5

def GLITCH_THRESHOLD_US : Nat := 50000

/-- Python `round(n / 1000)` for a non-negative integer `n`: round half to
even on the exact rational `n / 1000`. -/
def pyRound1000 (n : Nat) : Nat :=
  let q := n / 1000
  let r := n % 1000
  if r < 500 then q
  else if 500 < r then q + 1
  else if q % 2 = 0 then q else q + 1

/-- Line 75: `delta = (tick - previous_tick) & 0xFFFFFFFF`.  Python ints are
arbitrary precision and signed; `& 0xFFFFFFFF` on any int is reduction
mod `2^32`, so the computation is `(tick - prev) mod 2^32` over ℤ. -/
def deltaTick (tick prev : Nat) : Nat :=
  (((tick : Int) - (prev : Int)) % (4294967296 : Int)).toNat

/-- One pulse observation handed through `pulse_list`:
`(epoch, delta)` = (consumer-side wall-clock seconds, tick delta in µs). -/
structure Obs where
  timestamp : Nat
  interval : Nat
deriving DecidableEq

/-- One output record `(epoch, dt_ms, pulse_count)` as buffered and stored. -/
structure Rec where
  epoch : Nat
  dt_ms : Nat
  pulse_count : Nat
deriving DecidableEq

/-- State of the GPIO edge callback (lines 56-57, 65-83). -/
structure CbState where
  previous_tick : Option Nat
  pulse_list : List (Nat × Nat)
deriving DecidableEq

/-- Lines 65-83: ignore non-falling edges; the first falling edge only seeds
`previous_tick`; later ones append `(epoch, delta)` and always advance
`previous_tick` to the current tick. -/
def edge_callback (st : CbState) (level tick epoch : Nat) : CbState :=
  if level ≠ 0 then st
  else
    match st.previous_tick with
    | none => { st with previous_tick := some tick }
    | some p =>
        { previous_tick := some tick
          pulse_list := st.pulse_list ++ [(epoch, deltaTick tick p)] }

/-- Full mutable state of `aggregator_loop` (lines 101-111) plus the durable
store contents (`db`, the SQLite table as a list of rows). -/
structure LoopState where
  old_epoch : Option Nat
  AggStart : Nat
  dt_agg : Nat
  pulse_count : Nat
  out_buffer : List Rec
  last_flush_time : Nat
  block_input_pulses : Nat
  block_output_records : Nat
  db : List Rec
deriving DecidableEq

/-- `INSERT OR REPLACE` keyed by `epoch`: a row with the same epoch is
replaced. -/
def upsert (d : List Rec) (r : Rec) : List Rec :=
  d.filter (fun x => x.epoch ≠ r.epoch) ++ [r]

/-- Lines 113-138: flushing an empty buffer returns immediately; otherwise
all buffered rows are upserted, the buffer cleared, the flush clock and the
per-block diagnostic counters reset. -/
def flush_buffer (now : Nat) (s : LoopState) : LoopState :=
  if s.out_buffer = [] then s
  else
    { s with
      db := s.out_buffer.foldl upsert s.db
      out_buffer := []
      last_flush_time := now
      block_input_pulses := 0
      block_output_records := 0 }

/-- Lines 140-152: append a record to the buffer and count it. -/
def emit_output (r : Rec) (s : LoopState) : LoopState :=
  { s with
    out_buffer := s.out_buffer ++ [r]
    block_output_records := s.block_output_records + 1 }

/-- Lines 178-188: the window step for a qualifying observation while a
window is open: fold into the window if within `AggStart + MIN_TIME`,
otherwise emit the closed window and seed a new one; either way
`old_epoch` becomes the observation's timestamp. -/
def foldOrClose (s : LoopState) (o : Obs) : LoopState :=
  if o.timestamp ≤ s.AggStart + MIN_TIME then
    { s with
      dt_agg := s.dt_agg + o.interval
      pulse_count := s.pulse_count + 1
      old_epoch := some o.timestamp }
  else
    let t := emit_output ⟨s.AggStart, pyRound1000 s.dt_agg, s.pulse_count⟩ s
    { t with
      AggStart := o.timestamp
      dt_agg := o.interval
      pulse_count := 1
      old_epoch := some o.timestamp }

/-- Line 191 condition: time since last flush reached `DbaseBlkTime`, or the
buffer reached `MAX_RECORDS`. -/
def flushCond (now : Nat) (s : LoopState) : Prop :=
  s.last_flush_time + DbaseBlkTime ≤ now ∨ MAX_RECORDS ≤ s.out_buffer.length

instance (now : Nat) (s : LoopState) : Decidable (flushCond now s) := by
  unfold flushCond; infer_instance

/-- Lines 163-192, one loop iteration that pops an observation: count it;
a sub-threshold interval is dropped (`continue`, skipping the flush
check); the first qualifying observation seeds the window (`continue`
likewise); otherwise run the window step and then the flush check. -/
def processObs (now : Nat) (s : LoopState) (o : Obs) : LoopState :=
  let s1 := { s with block_input_pulses := s.block_input_pulses + 1 }
  if o.interval < GLITCH_THRESHOLD_US then s1
  else
    match s.old_epoch with
    | none =>
        { s1 with
          old_epoch := some o.timestamp
          AggStart := o.timestamp
          dt_agg := o.interval
          pulse_count := 1 }
    | some _ =>
        let t := foldOrClose s1 o
        if flushCond now t then flush_buffer now t else t

/-- Records emitted (handed to `emit_output`) during one `processObs` step:
none for a glitch, the first pulse, or a fold; exactly the closed window's
record on a window close. -/
def stepEmits (s : LoopState) (o : Obs) : List Rec :=
  if o.interval < GLITCH_THRESHOLD_US then []
  else
    match s.old_epoch with
    | none => []
    | some _ =>
        if o.timestamp ≤ s.AggStart + MIN_TIME then []
        else [⟨s.AggStart, pyRound1000 s.dt_agg, s.pulse_count⟩]

/-- Lines 155-159, the idle branch: only the time-based flush condition is
checked when no pulse is pending. -/
def idleStep (now : Nat) (s : LoopState) : LoopState :=
  if s.last_flush_time + DbaseBlkTime ≤ now then flush_buffer now s else s

/-- Run the loop over a list of (wall-clock reading, observation) pairs,
collecting the trace of emitted records. -/
def runLoop (s : LoopState) : List (Nat × Obs) → LoopState × List Rec
  | [] => (s, [])
  | (now, o) :: rest =>
      let p := runLoop (processObs now s o) rest
      (p.1, stepEmits s o ++ p.2)

/-- Records emitted by the shutdown drain (lines 194-196). -/
def finalizeEmits (s : LoopState) : List Rec :=
  if 0 < s.pulse_count then
    [⟨s.AggStart, pyRound1000 s.dt_agg, s.pulse_count⟩]
  else []

/-- Lines 194-198: after the loop exits, emit the open window if it holds
any pulse, then flush unconditionally. -/
def shutdownFinalize (now : Nat) (s : LoopState) : LoopState :=
  flush_buffer now
    (if 0 < s.pulse_count then
      emit_output ⟨s.AggStart, pyRound1000 s.dt_agg, s.pulse_count⟩ s
    else s)

/-- The loop under a stop request: `while running` is re-checked once per
iteration, so if the stop flag is observed after `k` iterations only the
first `k` enqueued observations are popped; the rest remain in
`pulse_list` when the loop exits into the shutdown path.  Returns the
final state and the full emission trace. -/
def stoppedRun (now : Nat) (s : LoopState) (chan : List (Nat × Obs)) (k : Nat) :
    LoopState × List Rec :=
  let p := runLoop s (chan.take k)
  (shutdownFinalize now p.1, p.2 ++ finalizeEmits p.1)

/-- Initial loop state (lines 101-111); `t0` is the `time.time()` sampled
into `last_flush_time` at entry. -/
def initState (t0 : Nat) : LoopState :=
  { old_epoch := none
    AggStart := 0
    dt_agg := 0
    pulse_count := 0
    out_buffer := []
    last_flush_time := t0
    block_input_pulses := 0
    block_output_records := 0
    db := [] }

/-! ## Example states used by concrete witnesses -/

/-- Loop state immediately after seeding a window at `t = 100` with
`interval = 60000`. -/
def s1w : LoopState :=
  { old_epoch := some 100
    AggStart := 100
    dt_agg := 60000
    pulse_count := 1
    out_buffer := []
    last_flush_time := 0
    block_input_pulses := 1
    block_output_records := 0
    db := [] }

/-- Same window state, for the shutdown counterexample. -/
def s2c : LoopState :=
  { old_epoch := some 100
    AggStart := 100
    dt_agg := 60000
    pulse_count := 1
    out_buffer := []
    last_flush_time := 0
    block_input_pulses := 1
    block_output_records := 0
    db := [] }

/-- A mid-window state holding three pulses. -/
def s3w : LoopState :=
  { old_epoch := some 100
    AggStart := 100
    dt_agg := 140000
    pulse_count := 3
    out_buffer := []
    last_flush_time := 0
    block_input_pulses := 3
    block_output_records := 0
    db := [] }

/-- An open-window state with one record already buffered. -/
def s5w : LoopState :=
  { old_epoch := some 100
    AggStart := 100
    dt_agg := 60000
    pulse_count := 1
    out_buffer := [⟨90, 55, 1⟩]
    last_flush_time := 0
    block_input_pulses := 1
    block_output_records := 1
    db := [] }

/-- A callback state that has already seen its first falling edge. -/
def cb0 : CbState := { previous_tick := some 0, pulse_list := [] }

/-! ## Helper lemmas -/

/-- Flushing never touches the aggregation-window fields. -/
lemma flush_frame (now : Nat) (s : LoopState) :
    (flush_buffer now s).old_epoch = s.old_epoch ∧
    (flush_buffer now s).AggStart = s.AggStart ∧
    (flush_buffer now s).dt_agg = s.dt_agg ∧
    (flush_buffer now s).pulse_count = s.pulse_count := by
  unfold flush_buffer
  split <;> simp

/-- A sub-threshold observation only bumps the input-pulse counter. -/
lemma glitch_step (now : Nat) (s : LoopState) (o : Obs)
    (h : o.interval < GLITCH_THRESHOLD_US) :
    processObs now s o = { s with block_input_pulses := s.block_input_pulses + 1 } ∧
    stepEmits s o = [] := by
  constructor <;> simp [processObs, stepEmits, h]

/-- For a qualifying observation with the window open, `processObs` is the
window step followed by the flush check. -/
lemma processObs_open (now : Nat) (s : LoopState) (o : Obs) (e : Nat)
    (hopen : s.old_epoch = some e) (hq : GLITCH_THRESHOLD_US ≤ o.interval) :
    processObs now s o =
      (if flushCond now (foldOrClose { s with block_input_pulses := s.block_input_pulses + 1 } o) then
        flush_buffer now (foldOrClose { s with block_input_pulses := s.block_input_pulses + 1 } o)
      else foldOrClose { s with block_input_pulses := s.block_input_pulses + 1 } o) := by
  simp [processObs, hopen, Nat.not_lt.mpr hq]

/-- The window step changes the output buffer and flush clock exactly by the
records it emits. -/
lemma foldOrClose_buffer (s : LoopState) (o : Obs) (e : Nat)
    (hopen : s.old_epoch = some e) (hq : GLITCH_THRESHOLD_US ≤ o.interval) :
    (foldOrClose { s with block_input_pulses := s.block_input_pulses + 1 } o).out_buffer
        = s.out_buffer ++ stepEmits s o ∧
    (foldOrClose { s with block_input_pulses := s.block_input_pulses + 1 } o).last_flush_time
        = s.last_flush_time := by
  unfold foldOrClose stepEmits emit_output
  split
  · rename_i hle
    simp [hopen, Nat.not_lt.mpr hq, hle]
  · rename_i hnle
    simp [hopen, Nat.not_lt.mpr hq, hnle]

/-- Window invariant: a closed (absent) window has `pulse_count = 0`; an open
window holds at least one pulse and its accumulated interval is at least
one glitch threshold, since every folded interval passed the filter. -/
def WInv (s : LoopState) : Prop :=
  (s.old_epoch = none → s.pulse_count = 0) ∧
  (s.old_epoch ≠ none → 1 ≤ s.pulse_count ∧ GLITCH_THRESHOLD_US ≤ s.dt_agg)

lemma pyRound1000_pos (n : Nat) (h : GLITCH_THRESHOLD_US ≤ n) : 0 < pyRound1000 n := by
  have h5 : 50000 ≤ n := h
  simp only [pyRound1000]
  split_ifs <;> omega

lemma wInv_init (t0 : Nat) : WInv (initState t0) := by
  constructor <;> simp [initState]

lemma wInv_flush (now : Nat) (s : LoopState) (h : WInv s) : WInv (flush_buffer now s) := by
  obtain ⟨h1, h2, h3, h4⟩ := flush_frame now s
  constructor
  · rw [h1, h4]
    exact h.1
  · rw [h1, h4, h3]
    exact h.2

lemma wInv_foldOrClose (t : LoopState) (o : Obs) (e : Nat)
    (ht : t.old_epoch = some e) (h : WInv t) (hq : GLITCH_THRESHOLD_US ≤ o.interval) :
    WInv (foldOrClose t o) := by
  obtain ⟨hc, hd⟩ := h.2 (by rw [ht]; exact Option.some_ne_none e)
  unfold foldOrClose
  split
  · exact ⟨fun hx => Option.noConfusion hx,
      fun _ => ⟨Nat.le_add_left 1 t.pulse_count, le_trans hd (Nat.le_add_right _ _)⟩⟩
  · exact ⟨fun hx => Option.noConfusion hx, fun _ => ⟨le_refl 1, hq⟩⟩

lemma wInv_processObs (now : Nat) (s : LoopState) (o : Obs) (h : WInv s) :
    WInv (processObs now s o) := by
  by_cases hg : o.interval < GLITCH_THRESHOLD_US
  · rw [(glitch_step now s o hg).1]
    exact h
  · rcases h0 : s.old_epoch with _ | e
    · simp only [processObs, if_neg hg, h0]
      exact ⟨fun hx => Option.noConfusion hx, fun _ => ⟨le_refl 1, Nat.not_lt.mp hg⟩⟩
    · rw [processObs_open now s o e h0 (Nat.not_lt.mp hg)]
      have hfc : WInv (foldOrClose { s with block_input_pulses := s.block_input_pulses + 1 } o) :=
        wInv_foldOrClose _ o e h0 ⟨h.1, h.2⟩ (Nat.not_lt.mp hg)
      split
      · exact wInv_flush now _ hfc
      · exact hfc

lemma stepEmits_mem (s : LoopState) (o : Obs) (r : Rec) (h : WInv s)
    (hr : r ∈ stepEmits s o) : 0 < r.pulse_count ∧ 0 < r.dt_ms := by
  unfold stepEmits at hr
  split at hr
  · simp at hr
  · split at hr
    · simp at hr
    · split at hr
      · simp at hr
      · rename_i heq _
        obtain ⟨hc, hd⟩ := h.2 (by rw [heq]; simp)
        rw [List.mem_singleton] at hr
        subst hr
        exact ⟨by simpa using hc, pyRound1000_pos _ hd⟩

lemma finalizeEmits_mem (s : LoopState) (r : Rec) (h : WInv s)
    (hr : r ∈ finalizeEmits s) : 0 < r.pulse_count ∧ 0 < r.dt_ms := by
  unfold finalizeEmits at hr
  split at hr
  · rename_i hc
    rw [List.mem_singleton] at hr
    subst hr
    have hne : s.old_epoch ≠ none := by
      intro h0
      have := h.1 h0
      omega
    obtain ⟨h1, h2⟩ := h.2 hne
    exact ⟨by simpa using hc, pyRound1000_pos _ h2⟩
  · simp at hr

lemma runLoop_spec (l : List (Nat × Obs)) : ∀ s : LoopState, WInv s →
    WInv (runLoop s l).1 ∧ ∀ r ∈ (runLoop s l).2, 0 < r.pulse_count ∧ 0 < r.dt_ms := by
  induction l with
  | nil =>
      intro s h
      exact ⟨h, by simp [runLoop]⟩
  | cons a rest ih =>
      intro s h
      obtain ⟨now, o⟩ := a
      obtain ⟨hi, he⟩ := ih (processObs now s o) (wInv_processObs now s o h)
      refine ⟨hi, ?_⟩
      intro r hr
      simp only [runLoop, List.mem_append] at hr
      cases hr with
      | inl hr => exact stepEmits_mem s o r h hr
      | inr hr => exact he r hr

/-! ## Claim theorems -/

/-- C1: while a window is open, a qualifying observation with
`timestamp ≤ windowStart + MIN_TIME` is folded into the window
(`dt_agg += interval`, `pulse_count += 1`, `AggStart` unchanged) and nothing
is emitted; otherwise exactly one record
`(AggStart, round(dt_agg/1000), pulse_count)` is emitted and a new window
is seeded from the observation. -/
theorem window_open_step (now : Nat) (s : LoopState) (o : Obs) (e : Nat)
    (hopen : s.old_epoch = some e) (hq : GLITCH_THRESHOLD_US ≤ o.interval) :
    (o.timestamp ≤ s.AggStart + MIN_TIME →
       stepEmits s o = [] ∧
       (processObs now s o).AggStart = s.AggStart ∧
       (processObs now s o).dt_agg = s.dt_agg + o.interval ∧
       (processObs now s o).pulse_count = s.pulse_count + 1) ∧
    (s.AggStart + MIN_TIME < o.timestamp →
       stepEmits s o = [⟨s.AggStart, pyRound1000 s.dt_agg, s.pulse_count⟩] ∧
       (processObs now s o).AggStart = o.timestamp ∧
       (processObs now s o).dt_agg = o.interval ∧
       (processObs now s o).pulse_count = 1) := by
  rw [processObs_open now s o e hopen hq]
  constructor
  · intro hle
    refine ⟨by simp [stepEmits, hopen, Nat.not_lt.mpr hq, hle], ?_⟩
    split
    · obtain ⟨h1, h2, h3, h4⟩ :=
        flush_frame now (foldOrClose { s with block_input_pulses := s.block_input_pulses + 1 } o)
      rw [h2, h3, h4]
      simp [foldOrClose, hle]
    · simp [foldOrClose, hle]
  · intro hlt
    have hnle : ¬ o.timestamp ≤ s.AggStart + MIN_TIME := Nat.not_le.mpr hlt
    refine ⟨by simp [stepEmits, hopen, Nat.not_lt.mpr hq, hnle], ?_⟩
    split
    · obtain ⟨h1, h2, h3, h4⟩ :=
        flush_frame now (foldOrClose { s with block_input_pulses := s.block_input_pulses + 1 } o)
      rw [h2, h3, h4]
      simp [foldOrClose, hnle, emit_output]
    · simp [foldOrClose, hnle, emit_output]

/-- C1 witness: folding a second pulse at `t = 101` into the window opened at
`t = 100`. -/
theorem window_open_step_w :
    stepEmits s1w ⟨101, 80000⟩ = [] ∧
    (processObs 0 s1w ⟨101, 80000⟩).AggStart = s1w.AggStart ∧
    (processObs 0 s1w ⟨101, 80000⟩).dt_agg = s1w.dt_agg + 80000 ∧
    (processObs 0 s1w ⟨101, 80000⟩).pulse_count = s1w.pulse_count + 1 :=
  (window_open_step 0 s1w ⟨101, 80000⟩ 100 rfl (by decide)).1 (by decide)

/-- C2 counterexample: the loop re-checks the stop flag every iteration and
exits without popping the remaining `pulse_list` entries, so the emissions
under a stop observed with one observation still enqueued differ from the
emissions of draining the channel first.  Concretely, from the window state
`s2c` with `(101, 80000)` enqueued and the stop observed immediately, the
code emits `(100, 60, 1)` while a full drain would emit `(100, 140, 2)`. -/
theorem stop_drops_pending :
    ¬ (∀ (now : Nat) (s : LoopState) (chan : List (Nat × Obs)) (k : Nat),
         (stoppedRun now s chan k).2
             = (runLoop s chan).2 ++ finalizeEmits (runLoop s chan).1) := by
  intro h
  have hc := h 0 s2c [(0, ⟨101, 80000⟩)] 0
  revert hc
  decide

/-- C2 amended: only when the stop flag is first observed after every
already-enqueued observation has been consumed (`chan.length ≤ k`) does the
shutdown produce exactly the emissions of processing the whole channel
followed by the shutdown drain; observations still enqueued at the stop
check are discarded. -/
theorem stop_after_empty_drains (now : Nat) (s : LoopState)
    (chan : List (Nat × Obs)) (k : Nat) (hk : chan.length ≤ k) :
    (stoppedRun now s chan k).2
        = (runLoop s chan).2 ++ finalizeEmits (runLoop s chan).1 := by
  unfold stoppedRun
  rw [List.take_of_length_le hk]

/-- C2 amended witness: with the stop observed after the single enqueued
observation was consumed, nothing is lost. -/
theorem stop_after_empty_drains_w :
    (stoppedRun 0 s2c [(0, ⟨101, 80000⟩)] 3).2
        = (runLoop s2c [(0, ⟨101, 80000⟩)]).2
            ++ finalizeEmits (runLoop s2c [(0, ⟨101, 80000⟩)]).1 :=
  stop_after_empty_drains 0 s2c [(0, ⟨101, 80000⟩)] 3 (by decide)

/-- C3: at shutdown, an open window with `pulse_count > 0` is emitted as
exactly one record `(AggStart, round(dt_agg/1000), pulse_count)`, and that
record reaches the durable store in the final unconditional flush; with
`pulse_count = 0` no extra record is emitted and the shutdown is just the
final flush. -/
theorem shutdown_drain (now : Nat) (s : LoopState) :
    (0 < s.pulse_count →
       finalizeEmits s = [⟨s.AggStart, pyRound1000 s.dt_agg, s.pulse_count⟩] ∧
       (⟨s.AggStart, pyRound1000 s.dt_agg, s.pulse_count⟩ : Rec) ∈ (shutdownFinalize now s).db) ∧
    (s.pulse_count = 0 →
       finalizeEmits s = [] ∧ shutdownFinalize now s = flush_buffer now s) := by
  constructor
  · intro h
    refine ⟨by simp [finalizeEmits, h], ?_⟩
    simp only [shutdownFinalize, if_pos h, emit_output, flush_buffer]
    split
    · rename_i hcontra
      simp at hcontra
    · simp [List.foldl_append, upsert]
  · intro h
    refine ⟨by simp [finalizeEmits, h], ?_⟩
    simp [shutdownFinalize, h]

/-- C3 witness: a partial window with three pulses is drained as one record
`(100, 140, 3)` which lands in the store. -/
theorem shutdown_drain_w :
    (0 : Nat) < 3 ∧
    finalizeEmits s3w = [⟨100, 140, 3⟩] ∧
    (⟨100, 140, 3⟩ : Rec) ∈ (shutdownFinalize 9 s3w).db := by
  refine ⟨by decide, ?_⟩
  have h := (shutdown_drain 9 s3w).1 (by decide)
  exact ⟨by simpa using h.1, by simpa using h.2⟩

/-- C4: an observation whose interval is below `GLITCH_THRESHOLD_US` bumps
the input-pulse diagnostic counter and changes nothing else — the window
fields, buffer, clock and store are untouched and nothing is emitted — for
any state, hence at any position in the stream including the very first
observation. -/
theorem glitch_no_contribution (now : Nat) (s : LoopState) (o : Obs)
    (h : o.interval < GLITCH_THRESHOLD_US) :
    processObs now s o = { s with block_input_pulses := s.block_input_pulses + 1 } ∧
    stepEmits s o = [] :=
  glitch_step now s o h

/-- C4 witness: a `49999 µs` pulse as the very first observation. -/
theorem glitch_no_contribution_w :
    processObs 0 (initState 7) ⟨100, 49999⟩
        = { initState 7 with block_input_pulses := 1 } ∧
    stepEmits (initState 7) ⟨100, 49999⟩ = [] :=
  glitch_no_contribution 0 (initState 7) ⟨100, 49999⟩ (by decide)

/-- C5: on a qualifying observation processed with the window open and a
non-empty buffer, the buffer is flushed exactly when the time since the last
flush reaches `DbaseBlkTime` or the buffer (with the record just emitted)
reaches `MAX_RECORDS`; and a step never grows the buffer to `MAX_RECORDS`
or beyond. -/
theorem flush_policy (now : Nat) (s : LoopState) (o : Obs) (e : Nat)
    (hopen : s.old_epoch = some e) (hq : GLITCH_THRESHOLD_US ≤ o.interval)
    (hne : s.out_buffer ≠ []) :
    ((processObs now s o).out_buffer = [] ↔
       (s.last_flush_time + DbaseBlkTime ≤ now ∨
        MAX_RECORDS ≤ (s.out_buffer ++ stepEmits s o).length)) ∧
    (s.out_buffer.length < MAX_RECORDS →
       (processObs now s o).out_buffer.length < MAX_RECORDS) := by
  rw [processObs_open now s o e hopen hq]
  obtain ⟨hb, hl⟩ := foldOrClose_buffer s o e hopen hq
  have hcond : flushCond now (foldOrClose { s with block_input_pulses := s.block_input_pulses + 1 } o) ↔
      (s.last_flush_time + DbaseBlkTime ≤ now ∨
       MAX_RECORDS ≤ (s.out_buffer ++ stepEmits s o).length) := by
    unfold flushCond
    rw [hb, hl]
  have htne : (foldOrClose { s with block_input_pulses := s.block_input_pulses + 1 } o).out_buffer ≠ [] := by
    rw [hb]
    intro hcontra
    exact hne (List.append_eq_nil.mp hcontra).1
  constructor
  · split
    · rename_i hf
      constructor
      · intro _
        exact hcond.mp hf
      · intro _
        simp [flush_buffer, if_neg htne]
    · rename_i hf
      constructor
      · intro hb0
        exact absurd hb0 htne
      · intro hc
        exact absurd (hcond.mpr hc) hf
  · intro hlen
    split
    · rename_i hf
      simp only [flush_buffer, if_neg htne]
      simp [MAX_RECORDS]
    · rename_i hf
      rw [flushCond] at hf
      push_neg at hf
      exact hf.2

/-- C5 witness: with one buffered record and 100 seconds since the last
flush, processing a folding pulse flushes the buffer, and the buffer stays
below the cap. -/
theorem flush_policy_w :
    (processObs 100 s5w ⟨101, 80000⟩).out_buffer = [] ∧
    (processObs 100 s5w ⟨101, 80000⟩).out_buffer.length < MAX_RECORDS := by
  have h := flush_policy 100 s5w ⟨101, 80000⟩ 100 rfl (by decide) (by decide)
  exact ⟨h.1.mpr (Or.inl (by decide)), h.2 (by decide)⟩

/-- C6: `delta = (tick - previous_tick) & 0xFFFFFFFF` is modular subtraction
over the 32-bit wrap width, and at `previousTick = 0xFFFFFFF0`,
`tick = 0x00000010` it yields `0x20 = 32`. -/
theorem deltaTick_modular :
    (∀ tick prev : Nat, tick < 4294967296 → prev < 4294967296 →
       deltaTick tick prev = (tick + (4294967296 - prev)) % 4294967296) ∧
    deltaTick 16 4294967280 = 32 := by
  constructor
  · intro tick prev h1 h2
    unfold deltaTick
    omega
  · decide

/-- C6 witness: the wrap-boundary pair from the spec. -/
theorem deltaTick_modular_w :
    deltaTick 16 4294967280 = (16 + (4294967296 - 4294967280)) % 4294967296 :=
  deltaTick_modular.1 16 4294967280 (by decide) (by decide)

/-- C7: the end-to-end scenario `(100, 60000), (101, 80000), (107, 90000)`
emits exactly `(100, 140, 2)` and leaves the open window
`AggStart = 107, dt_agg = 90000, pulse_count = 1`. -/
theorem endToEnd_scenario :
    (runLoop (initState 0) [(0, ⟨100, 60000⟩), (0, ⟨101, 80000⟩), (0, ⟨107, 90000⟩)]).2
        = [⟨100, 140, 2⟩] ∧
    (runLoop (initState 0) [(0, ⟨100, 60000⟩), (0, ⟨101, 80000⟩), (0, ⟨107, 90000⟩)]).1.AggStart
        = 107 ∧
    (runLoop (initState 0) [(0, ⟨100, 60000⟩), (0, ⟨101, 80000⟩), (0, ⟨107, 90000⟩)]).1.dt_agg
        = 90000 ∧
    (runLoop (initState 0) [(0, ⟨100, 60000⟩), (0, ⟨101, 80000⟩), (0, ⟨107, 90000⟩)]).1.pulse_count
        = 1 := by
  decide

/-- C8: in any run from the initial state, every emitted record — during the
loop or from the shutdown drain — with a positive pulse count has a
positive `dt_ms`, because each constituent interval passed the 50000 µs
glitch filter, so the accumulated interval rounds to at least 50 ms. -/
theorem emitted_record_elapsed_pos (t0 : Nat) (l : List (Nat × Obs)) (r : Rec)
    (hr : r ∈ (runLoop (initState t0) l).2 ++ finalizeEmits (runLoop (initState t0) l).1)
    (_hc : 0 < r.pulse_count) : 0 < r.dt_ms := by
  obtain ⟨hW, hE⟩ := runLoop_spec l (initState t0) (wInv_init t0)
  rw [List.mem_append] at hr
  cases hr with
  | inl h => exact (hE r h).2
  | inr h => exact (finalizeEmits_mem _ r hW h).2

/-- C8 witness: the record `(100, 60, 1)` emitted by the two-pulse run. -/
theorem emitted_record_elapsed_pos_w : 0 < (⟨100, 60, 1⟩ : Rec).dt_ms :=
  emitted_record_elapsed_pos 0 [(0, ⟨100, 60000⟩), (0, ⟨107, 80000⟩)] ⟨100, 60, 1⟩
    (by decide) (by decide)

/-- C9: a falling edge whose computed delta is below the glitch threshold
still advances `previous_tick`, so the next delta is measured from the
glitch edge; and the aggregator drops the glitch observation wholesale,
merging its elapsed time into nothing. -/
theorem glitch_advances_previous_tick (st : CbState) (t0 tick1 tick2 e1 e2 : Nat)
    (h : st.previous_tick = some t0)
    (hg : deltaTick tick1 t0 < GLITCH_THRESHOLD_US) :
    (edge_callback st 0 tick1 e1).previous_tick = some tick1 ∧
    (edge_callback (edge_callback st 0 tick1 e1) 0 tick2 e2).pulse_list
        = st.pulse_list ++ [(e1, deltaTick tick1 t0), (e2, deltaTick tick2 tick1)] ∧
    (∀ (now : Nat) (s : LoopState),
       processObs now s ⟨e1, deltaTick tick1 t0⟩
           = { s with block_input_pulses := s.block_input_pulses + 1 }) := by
  refine ⟨by simp [edge_callback, h], by simp [edge_callback, h], ?_⟩
  intro now s
  exact (glitch_step now s ⟨e1, deltaTick tick1 t0⟩ hg).1

/-- C9 witness: a `100 µs` glitch edge at tick 100 followed by an edge at
tick 60200; the second interval is measured from tick 100. -/
theorem glitch_advances_previous_tick_w :
    (edge_callback cb0 0 100 10).previous_tick = some 100 ∧
    (edge_callback (edge_callback cb0 0 100 10) 0 60200 11).pulse_list
        = [(10, deltaTick 100 0), (11, deltaTick 60200 100)] ∧
    processObs 0 (initState 3) ⟨10, deltaTick 100 0⟩
        = { initState 3 with block_input_pulses := 1 } := by
  have h := glitch_advances_previous_tick cb0 0 100 60200 10 11 rfl (by decide)
  exact ⟨h.1, by simpa using h.2.1, h.2.2 0 (initState 3)⟩

/-- C10: flushing with an empty batch is a complete no-op: the state,
including `last_flush_time` and both diagnostic counters, is returned
unchanged. -/
theorem flush_empty_noop (now : Nat) (s : LoopState) (h : s.out_buffer = []) :
    flush_buffer now s = s := by
  simp [flush_buffer, h]

/-- C10 witness: an empty-buffer flush at time 5 leaves the initial state
intact. -/
theorem flush_empty_noop_w : flush_buffer 5 (initState 0) = initState 0 :=
  flush_empty_noop 5 (initState 0) rfl

end CollectEnergy
